import Mathlib

/-!
Shallow embedding of the teer-serverless span exporters.

The repository ships two exporter variants:

* TeerEdgeExporter (src/unnamed/part_002, lines 233-443): a bounded span
  queue, interval-driven flushes, batch partitioning (createBatches),
  sequential batch sending (processBatches) with requeue-at-front of a
  failed batch, and a single in-flight flush marker (activeFlush).
* TeerExporter (src/unnamed/part_002, lines 1-232): a span queue without
  an export-time capacity check, a single-request flush that takes at most
  MAX_QUEUE_SIZE records (slice(0, MAX)), and sendSpans which throws on a
  missing API key before its requeue handler.

Spans are opaque records; both exporters only copy, queue and serialize
them, so the embedding is parametric in the span type.  JavaScript runs
the exporters on a single event loop: suspension happens only at awaits
(network sends), so each synchronous segment of the source is modelled as
one atomic step on the exporter state.  Fallible operations return a Bool
"resolved" flag: false models a rejected promise (a thrown error).
-/

namespace Teer

/-- CODE.SUCCESS from src/src/const.ts. -/
def CODE_SUCCESS : Nat := 0

/-- CODE.ERROR from src/src/const.ts. -/
def CODE_ERROR : Nat := 1

/-- MAX_QUEUE_SIZE, shared constant of both exporter variants. -/
def MAX_QUEUE_SIZE : Nat := 1000

/-- State of a TeerEdgeExporter instance: the span queue, whether the
periodic interval timer is installed (flushIntervalId not null), the
in-flight flush marker holding the batches not yet attempted by the
running processBatches call (activeFlush, none when no flush is in
flight), and the isShuttingDown flag. -/
structure EdgeState (α : Type) where
  spanQueue : List α
  timerActive : Bool
  activeFlush : Option (List (List α))
  isShuttingDown : Bool
deriving DecidableEq, Repr

/-- Constructor state of TeerEdgeExporter: empty queue, interval started
by startFlushInterval, no in-flight flush, not shutting down. -/
def edgeInit (α : Type) : EdgeState α := ⟨[], true, none, false⟩

/-- TeerEdgeExporter.createBatches: the loop
for i from 0 by batchSize: batches.push(spans.slice(i, i + batchSize)).
For batchSize = 0 the source loop would not advance; the model returns []
there, and every theorem that uses a batch size assumes it is at least 1
(the source default is 10). -/
def createBatches {α : Type} (spans : List α) (batchSize : Nat) : List (List α) :=
  match spans, batchSize with
  | [], _ => []
  | _ :: _, 0 => []
  | x :: xs, b + 1 => (x :: xs).take (b + 1) :: createBatches (xs.drop b) (b + 1)
termination_by spans.length
decreasing_by
  simp only [List.length_drop, List.length_cons]
  omega

/-- Outcome of a processBatches run: the batches successfully sent in
order, the records unshifted back onto the queue front (the failed
batch, or [] when every batch succeeded), and whether the returned
promise resolved (false models the rethrown send error). -/
structure PBResult (α : Type) where
  sent : List (List α)
  requeued : List α
  ok : Bool
deriving DecidableEq, Repr

/-- TeerEdgeExporter.processBatches: sends each batch in order through
the transport; on the first failing batch it unshifts exactly that
batch's records onto the queue and rethrows, abandoning the remaining
batches.  The transport oracle tr returns whether sendBatch resolves for
a given batch (response.ok and no network exception). -/
def processBatches {α : Type} (tr : List α → Bool) : List (List α) → PBResult α
  | [] => ⟨[], [], true⟩
  | b :: rest =>
    if tr b then
      let r := processBatches tr rest
      ⟨b :: r.sent, r.requeued, r.ok⟩
    else ⟨[], b, false⟩

/-- slice(-MAX_QUEUE_SIZE) applied when the queue exceeds the bound:
keeps the most recent MAX_QUEUE_SIZE records, dropping the oldest
excess. -/
def trimQueue {α : Type} (q : List α) : List α :=
  if q.length > MAX_QUEUE_SIZE then q.drop (q.length - MAX_QUEUE_SIZE) else q

/-- Result of one TeerEdgeExporter.export call: the new state, the code
passed to resultCallback, and whether the onExport hook was invoked (it
is the first statement of the try block, so it always is). -/
structure ExportOutcome (α : Type) where
  state : EdgeState α
  code : Nat
  hookInvoked : Bool
deriving DecidableEq, Repr

/-- TeerEdgeExporter.export: invokes the onExport hook, pushes the spans,
trims the queue to MAX_QUEUE_SIZE keeping the newest records, and calls
resultCallback with CODE.SUCCESS.  hookThrows models the onExport
callback throwing: the catch block then reports CODE.ERROR and the push
never runs.  There is no isShuttingDown check. -/
def edgeExport {α : Type} (s : EdgeState α) (spans : List α) (hookThrows : Bool) :
    ExportOutcome α :=
  if hookThrows then ⟨s, CODE_ERROR, true⟩
  else ⟨{ s with spanQueue := trimQueue (s.spanQueue ++ spans) }, CODE_SUCCESS, true⟩

/-- Result of one whole flush cycle: final state, batches sent, and
whether the flush promise resolved. -/
structure FlushOutcome (α : Type) where
  state : EdgeState α
  sent : List (List α)
  ok : Bool
deriving DecidableEq, Repr

/-- TeerEdgeExporter.flush run to completion with no interleaved events:
returns immediately when the queue is empty or a flush is in flight;
otherwise partitions the queue with createBatches, empties the queue,
awaits processBatches, and the finally block clears activeFlush.  A
failed processBatches leaves its requeued records as the whole queue
(the queue was emptied at drain time) and the flush promise rejects. -/
def edgeFlush {α : Type} (tr : List α → Bool) (batchSize : Nat) (s : EdgeState α) :
    FlushOutcome α :=
  if s.spanQueue.isEmpty || s.activeFlush.isSome then ⟨s, [], true⟩
  else
    let r := processBatches tr (createBatches s.spanQueue batchSize)
    ⟨{ s with spanQueue := r.requeued, activeFlush := none }, r.sent, r.ok⟩

/-- The synchronous opening segment of TeerEdgeExporter.flush: the guard
check, createBatches, emptying the queue and installing the activeFlush
marker all run without a suspension point, so they form one atomic step.
This is the only place a drain starts, shared by the timer, forceFlush
and shutdown trigger paths. -/
def stepFlushCall {α : Type} (batchSize : Nat) (s : EdgeState α) : EdgeState α :=
  if s.spanQueue.isEmpty || s.activeFlush.isSome then s
  else
    { s with spanQueue := [], activeFlush := some (createBatches s.spanQueue batchSize) }

/-- One firing of the interval callback installed by startFlushInterval:
nothing happens unless the timer is installed; the callback starts a
flush only when the queue is non-empty and no flush is active, and it
swallows any eventual flush rejection with .catch. -/
def stepTick {α : Type} (batchSize : Nat) (s : EdgeState α) : EdgeState α :=
  if s.timerActive && !s.spanQueue.isEmpty && !s.activeFlush.isSome then
    stepFlushCall batchSize s
  else s

/-- Driving the sends still pending in an in-flight processBatches call
to completion against the current queue q: each successful send removes
the head batch; the first failing send unshifts that batch onto q and
the promise rejects (second component false). -/
def runPendingBatches {α : Type} (tr : List α → Bool) :
    List (List α) → List α → List α × Bool
  | [], q => (q, true)
  | b :: rest, q => if tr b then runPendingBatches tr rest q else (b ++ q, false)

/-- Awaiting the in-flight flush (await this.activeFlush) when one
exists: the batches still pending are driven by runPendingBatches and
the finally / rejection clears the marker; when no flush is in flight
the await is skipped. -/
def runPending {α : Type} (tr : List α → Bool) (s : EdgeState α) : EdgeState α × Bool :=
  match s.activeFlush with
  | none => (s, true)
  | some l =>
    let r := runPendingBatches tr l s.spanQueue
    ({ s with spanQueue := r.1, activeFlush := none }, r.2)

/-- TeerEdgeExporter.forceFlush: awaits any in-flight flush (rethrowing
its rejection, since there is no catch), then awaits this.flush(), whose
rejection likewise propagates to the caller. -/
def edgeForceFlush {α : Type} (tr : List α → Bool) (batchSize : Nat) (s : EdgeState α) :
    FlushOutcome α :=
  let p := runPending tr s
  if p.2 then edgeFlush tr batchSize p.1
  else ⟨p.1, [], false⟩

/-- TeerEdgeExporter.shutdown: sets isShuttingDown, clears the interval
timer, awaits any in-flight flush (a rejection propagates and skips the
rest, as shutdown has no catch), then awaits one final this.flush(). -/
def edgeShutdown {α : Type} (tr : List α → Bool) (batchSize : Nat) (s : EdgeState α) :
    FlushOutcome α :=
  let s0 : EdgeState α := { s with isShuttingDown := true, timerActive := false }
  let p := runPending tr s0
  if p.2 then edgeFlush tr batchSize p.1
  else ⟨p.1, [], false⟩

/-- A sequence of export calls folded over the state: each element is the
spans of one call together with whether the onExport hook threw there. -/
def foldExports {α : Type} (s : EdgeState α) : List (List α × Bool) → EdgeState α
  | [] => s
  | c :: rest => foldExports (edgeExport s c.1 c.2).state rest

/-- State of a TeerExporter (node variant) instance: span queue, interval
timer installed, in-flight sendSpans marker (activeFlush as a plain
flag), and the isShuttingDown flag. -/
structure NodeState (α : Type) where
  spanQueue : List α
  timerActive : Bool
  activeFlush : Bool
  isShuttingDown : Bool
deriving DecidableEq, Repr

/-- TeerExporter constructor: stores the options without validating the
apiKey (construction succeeds with or without a key), starts the flush
interval, and begins with an empty queue. -/
def nodeMk (α : Type) (apiKey : Option String) : NodeState α × Option String :=
  (⟨[], true, false, false⟩, apiKey)

/-- TeerExporter.export: enqueueSerializableSpans pushes every incoming
span onto the queue tail with no capacity check, then resultCallback
receives code 0. -/
def nodeExport {α : Type} (s : NodeState α) (spans : List α) : NodeState α × Nat :=
  ({ s with spanQueue := s.spanQueue ++ spans }, CODE_SUCCESS)

/-- TeerExporter.flush run to completion with no interleaved events:
returns when the queue is empty or a send is active; otherwise takes
spans = spanQueue.slice(0, MAX_QUEUE_SIZE), leaves the remainder queued,
and awaits sendSpans.  sendSpans throws before its try block when the
apiKey is missing, so that error skips the requeue handler and the taken
spans are dropped; a transport failure (non-ok response or network
exception) is caught, requeues the taken spans at the queue front and
rethrows.  tr is the transport success oracle for the single request. -/
def nodeFlush {α : Type} (tr : Bool) (apiKey : Option String) (s : NodeState α) :
    NodeState α × Bool :=
  if s.spanQueue.isEmpty || s.activeFlush then (s, true)
  else
    let spans := s.spanQueue.take MAX_QUEUE_SIZE
    let rest := s.spanQueue.drop spans.length
    match apiKey with
    | none => ({ s with spanQueue := rest, activeFlush := false }, false)
    | some _ =>
      if tr then ({ s with spanQueue := rest, activeFlush := false }, true)
      else ({ s with spanQueue := spans ++ rest, activeFlush := false }, false)

/-! Helper lemmas about the embedded operations. -/

theorem trimQueue_length {α : Type} (q : List α) :
    (trimQueue q).length = min q.length MAX_QUEUE_SIZE := by
  unfold trimQueue
  split
  · simp only [List.length_drop]
    omega
  · omega

theorem trimQueue_suffix {α : Type} (q : List α) : trimQueue q <:+ q := by
  unfold trimQueue
  split
  · exact List.drop_suffix _ _
  · exact List.suffix_refl _

theorem trimQueue_eq_of_le {α : Type} (q : List α)
    (h : q.length ≤ MAX_QUEUE_SIZE) : trimQueue q = q := by
  unfold trimQueue
  split
  · omega
  · rfl

theorem createBatches_nil {α : Type} (bs : Nat) :
    createBatches ([] : List α) bs = [] := by
  simp [createBatches]

theorem createBatches_flatten {α : Type} (b : Nat) (l : List α) :
    (createBatches l (b + 1)).flatten = l := by
  suffices H : ∀ (n : Nat) (l : List α), l.length = n →
      (createBatches l (b + 1)).flatten = l from H l.length l rfl
  intro n
  induction n using Nat.strong_induction_on with
  | _ n ih =>
    intro l hl
    match l with
    | [] => simp [createBatches]
    | x :: xs =>
      have hlt : (xs.drop b).length < n := by
        simp only [List.length_drop]
        simp only [List.length_cons] at hl
        omega
      rw [createBatches]
      simp only [List.flatten_cons]
      rw [ih _ hlt _ rfl]
      rw [show xs.drop b = (x :: xs).drop (b + 1) from rfl]
      exact List.take_append_drop (b + 1) (x :: xs)

theorem createBatches_mem {α : Type} (b : Nat) (l : List α) :
    ∀ c ∈ createBatches l (b + 1), c.length ≤ b + 1 ∧ c ≠ [] := by
  suffices H : ∀ (n : Nat) (l : List α), l.length = n →
      ∀ c ∈ createBatches l (b + 1), c.length ≤ b + 1 ∧ c ≠ [] from H l.length l rfl
  intro n
  induction n using Nat.strong_induction_on with
  | _ n ih =>
    intro l hl c hc
    match l with
    | [] => simp [createBatches] at hc
    | x :: xs =>
      have hlt : (xs.drop b).length < n := by
        simp only [List.length_drop]
        simp only [List.length_cons] at hl
        omega
      rw [createBatches] at hc
      rcases List.mem_cons.mp hc with h1 | h2
      · subst h1
        refine ⟨List.length_take_le _ _, ?_⟩
        simp
      · exact ih _ hlt _ rfl c h2

theorem processBatches_all_true {α : Type} (bl : List (List α)) :
    processBatches (fun _ => true) bl = ⟨bl, [], true⟩ := by
  induction bl with
  | nil => rfl
  | cons b rest ih => simp [processBatches, ih]

theorem runPendingBatches_eq {α : Type} (tr : List α → Bool)
    (bl : List (List α)) (q : List α) :
    runPendingBatches tr bl q =
      ((processBatches tr bl).requeued ++ q, (processBatches tr bl).ok) := by
  induction bl with
  | nil => simp [runPendingBatches, processBatches]
  | cons b rest ih =>
    by_cases htr : tr b <;> simp [runPendingBatches, processBatches, htr, ih]

theorem runPending_none {α : Type} (tr : List α → Bool) (s : EdgeState α)
    (h : s.activeFlush = none) : runPending tr s = (s, true) := by
  simp [runPending, h]

theorem runPending_timerActive {α : Type} (tr : List α → Bool) (s : EdgeState α) :
    (runPending tr s).1.timerActive = s.timerActive := by
  cases h : s.activeFlush <;> simp [runPending, h]

theorem runPending_isShuttingDown {α : Type} (tr : List α → Bool) (s : EdgeState α) :
    (runPending tr s).1.isShuttingDown = s.isShuttingDown := by
  cases h : s.activeFlush <;> simp [runPending, h]

theorem runPending_suffix {α : Type} (tr : List α → Bool) (u : EdgeState α) :
    u.spanQueue <:+ (runPending tr u).1.spanQueue := by
  cases hu : u.activeFlush with
  | none =>
    rw [runPending_none tr u hu]
  | some l =>
    simp only [runPending, hu, runPendingBatches_eq]
    exact ⟨_, rfl⟩

theorem edgeFlush_none {α : Type} (tr : List α → Bool) (bs : Nat) (s : EdgeState α)
    (h : s.activeFlush = none) :
    edgeFlush tr bs s =
      ⟨⟨(processBatches tr (createBatches s.spanQueue bs)).requeued,
          s.timerActive, none, s.isShuttingDown⟩,
        (processBatches tr (createBatches s.spanQueue bs)).sent,
        (processBatches tr (createBatches s.spanQueue bs)).ok⟩ := by
  obtain ⟨q, tm, af, sd⟩ := s
  simp only at h
  subst h
  cases q with
  | nil => simp [edgeFlush, createBatches_nil, processBatches]
  | cons x xs => simp [edgeFlush]

theorem edgeFlush_timerActive {α : Type} (tr : List α → Bool) (bs : Nat)
    (s : EdgeState α) : (edgeFlush tr bs s).state.timerActive = s.timerActive := by
  unfold edgeFlush
  split <;> rfl

theorem edgeFlush_isShuttingDown {α : Type} (tr : List α → Bool) (bs : Nat)
    (s : EdgeState α) : (edgeFlush tr bs s).state.isShuttingDown = s.isShuttingDown := by
  unfold edgeFlush
  split <;> rfl

theorem stepTick_timer_off {α : Type} (bs : Nat) (s : EdgeState α)
    (h : s.timerActive = false) : stepTick bs s = s := by
  simp [stepTick, h]

theorem foldExports_length_le {α : Type} (calls : List (List α × Bool))
    (s : EdgeState α) (h : s.spanQueue.length ≤ MAX_QUEUE_SIZE) :
    (foldExports s calls).spanQueue.length ≤ MAX_QUEUE_SIZE := by
  induction calls generalizing s with
  | nil => exact h
  | cons c rest ih =>
    simp only [foldExports]
    cases hb : c.2
    · simp only [edgeExport, hb, Bool.false_eq_true, if_false]
      exact ih _ (by rw [trimQueue_length]; omega)
    · simp only [edgeExport, hb, if_true]
      exact ih _ h

theorem foldExports_queue {α : Type} (calls : List (List α)) (s : EdgeState α)
    (h : s.spanQueue.length + calls.flatten.length ≤ MAX_QUEUE_SIZE) :
    foldExports s (calls.map (fun c => (c, false))) =
      { s with spanQueue := s.spanQueue ++ calls.flatten } := by
  induction calls generalizing s with
  | nil => simp [foldExports]
  | cons c rest ih =>
    simp only [List.flatten_cons, List.length_append] at h
    simp only [List.map_cons, foldExports, edgeExport, Bool.false_eq_true, if_false]
    rw [trimQueue_eq_of_le _ (by simp only [List.length_append]; omega)]
    rw [ih _ (by simp only [List.length_append]; omega)]
    simp [List.flatten_cons, List.append_assoc]

/-! Claim theorems. -/

/-- Transport that fails exactly on the batch [2, 3] and succeeds on
every other batch. -/
def failOnCD : List Nat → Bool := fun b => decide (b ≠ [2, 3])

/-- C1 counterexample: with batch size 2, queue [A,B,C,D,E] embedded as
[0,1,2,3,4] and the transport failing on the batch [C,D] = [2,3], the
queue after the flush cycle is [2,3]: the untried batch [4] (that is,
[E]) is never requeued, so the queue differs from the [C,D,E] =
[2,3,4] the claim states. -/
theorem c1_counterexample :
    (edgeFlush failOnCD 2 ⟨[0, 1, 2, 3, 4], true, none, false⟩).state.spanQueue = [2, 3] ∧
    (edgeFlush failOnCD 2 ⟨[0, 1, 2, 3, 4], true, none, false⟩).state.spanQueue ≠ [2, 3, 4] := by
  constructor <;> simp [edgeFlush, failOnCD, createBatches, processBatches]

/-- C1 amended: when a batch send fails during a flush, the coordinator
stops processing the remaining batches of that flush and requeues the
failed batch (only) at the queue front, dropping the records of the
untried batches; for batch size 2 and drained records [A,B,C,D,E] with
the transport failing on [C,D], exactly [A,B] was sent, the queue after
the cycle is [C,D], and the flush promise rejects. -/
theorem c1_amended {α : Type} (a b c d e : α) (tr : List α → Bool)
    (tm sd : Bool) (hab : tr [a, b] = true) (hcd : tr [c, d] = false) :
    (edgeFlush tr 2 ⟨[a, b, c, d, e], tm, none, sd⟩).sent = [[a, b]] ∧
    (edgeFlush tr 2 ⟨[a, b, c, d, e], tm, none, sd⟩).state.spanQueue = [c, d] ∧
    (edgeFlush tr 2 ⟨[a, b, c, d, e], tm, none, sd⟩).ok = false := by
  refine ⟨?_, ?_, ?_⟩ <;> simp [edgeFlush, createBatches, processBatches, hab, hcd]

/-- C1 amended, witness at the concrete scenario. -/
theorem c1_amended_witness :
    (edgeFlush failOnCD 2 ⟨[0, 1, 2, 3, 4], true, none, false⟩).sent = [[0, 1]] ∧
    (edgeFlush failOnCD 2 ⟨[0, 1, 2, 3, 4], true, none, false⟩).state.spanQueue = [2, 3] ∧
    (edgeFlush failOnCD 2 ⟨[0, 1, 2, 3, 4], true, none, false⟩).ok = false :=
  c1_amended 0 1 2 3 4 failOnCD true false (by simp [failOnCD]) (by simp [failOnCD])

/-- C2: single-flight — while a flush is in flight (activeFlush is
non-null) every further flush trigger leaves the state untouched: an
interval tick does not start a second drain, the shared flush entry
segment (the path taken by forceFlush and shutdown) returns without
draining, and the flush promise resolves at once without sending, so at
most one drain is outstanding at any instant. -/
theorem c2_single_flight {α : Type} (bs : Nat) (s : EdgeState α)
    (f : List (List α)) (h : s.activeFlush = some f) :
    stepTick bs s = s ∧ stepFlushCall bs s = s ∧
    ∀ tr : List α → Bool, edgeFlush tr bs s = ⟨s, [], true⟩ := by
  refine ⟨?_, ?_, fun tr => ?_⟩ <;> simp [stepTick, stepFlushCall, edgeFlush, h]

/-- C2 witness at a concrete in-flight state. -/
theorem c2_single_flight_witness :
    stepTick 3 (⟨[1], true, some [[2]], false⟩ : EdgeState Nat) =
      ⟨[1], true, some [[2]], false⟩ ∧
    stepFlushCall 3 (⟨[1], true, some [[2]], false⟩ : EdgeState Nat) =
      ⟨[1], true, some [[2]], false⟩ ∧
    edgeFlush (fun _ => true) 3 (⟨[1], true, some [[2]], false⟩ : EdgeState Nat) =
      ⟨⟨[1], true, some [[2]], false⟩, [], true⟩ :=
  ⟨(c2_single_flight 3 _ [[2]] rfl).1, (c2_single_flight 3 _ [[2]] rfl).2.1,
    (c2_single_flight 3 _ [[2]] rfl).2.2 (fun _ => true)⟩

/-- C3 counterexample: a TeerExporter (node variant) instance accepts
1001 spans through one export call with no trimming, so its queue
length exceeds the configured maximum of 1000, refuting the claim for
that exporter variant. -/
theorem c3_counterexample :
    (nodeExport (nodeMk Nat none).1 (List.replicate 1001 0)).1.spanQueue.length = 1001 ∧
    ¬ (nodeExport (nodeMk Nat none).1 (List.replicate 1001 0)).1.spanQueue.length ≤
        MAX_QUEUE_SIZE := by
  constructor
  · simp only [nodeExport, nodeMk, List.nil_append, List.length_replicate]
  · simp only [nodeExport, nodeMk, List.nil_append, List.length_replicate, MAX_QUEUE_SIZE]
    omega

/-- C3 amended: on the TeerEdgeExporter the claim holds — after any
sequence of export calls from a fresh instance the queue length never
exceeds MAX_QUEUE_SIZE, each export keeps a suffix of the old queue
followed by the new spans (most recent kept, oldest excess dropped),
and an export that overflows leaves exactly MAX_QUEUE_SIZE records; the
TeerExporter variant, however, appends without trimming, so its queue
can exceed the bound. -/
theorem c3_amended {α : Type} (calls : List (List α × Bool)) (s : EdgeState α)
    (spans : List α) :
    (foldExports (edgeInit α) calls).spanQueue.length ≤ MAX_QUEUE_SIZE ∧
    (edgeExport s spans false).state.spanQueue <:+ s.spanQueue ++ spans ∧
    ((s.spanQueue ++ spans).length > MAX_QUEUE_SIZE →
      (edgeExport s spans false).state.spanQueue.length = MAX_QUEUE_SIZE) := by
  refine ⟨foldExports_length_le _ _ (by simp [edgeInit, MAX_QUEUE_SIZE]), ?_, ?_⟩
  · simp only [edgeExport, Bool.false_eq_true, if_false]
    exact trimQueue_suffix _
  · intro hgt
    simp only [edgeExport, Bool.false_eq_true, if_false]
    rw [trimQueue_length]
    omega

/-- C3 amended, witness: one over-capacity export on a full queue keeps
exactly the most recent MAX_QUEUE_SIZE records. -/
theorem c3_amended_witness :
    ((⟨List.replicate 1000 0, true, none, false⟩ : EdgeState Nat).spanQueue ++ [5]).length >
      MAX_QUEUE_SIZE ∧
    (edgeExport (⟨List.replicate 1000 0, true, none, false⟩ : EdgeState Nat) [5]
        false).state.spanQueue.length = MAX_QUEUE_SIZE :=
  ⟨by
    show (List.replicate 1000 (0 : Nat) ++ [5]).length > MAX_QUEUE_SIZE
    simp only [List.length_append, List.length_replicate, List.length_cons,
      List.length_nil, MAX_QUEUE_SIZE]
    omega,
    (c3_amended [] ⟨List.replicate 1000 0, true, none, false⟩ [5]).2.2
      (by
        show (List.replicate 1000 (0 : Nat) ++ [5]).length > MAX_QUEUE_SIZE
        simp only [List.length_append, List.length_replicate, List.length_cons,
          List.length_nil, MAX_QUEUE_SIZE]
        omega)⟩

/-- Queue behavior of a TeerExporter flush with an apiKey configured
and a successful send: the first MAX_QUEUE_SIZE records are drained
(spanQueue.slice(0, MAX)) and only the untaken remainder stays
queued. -/
theorem nodeFlush_sent_ok {α : Type} (key : String) (q : List α)
    (tm sd : Bool) (hq : q ≠ []) :
    nodeFlush true (some key) ⟨q, tm, false, sd⟩ =
      (⟨q.drop (min MAX_QUEUE_SIZE q.length), tm, false, sd⟩, true) := by
  cases q with
  | nil => exact absurd rfl hq
  | cons x xs => simp [nodeFlush]

/-- Queue behavior of a TeerExporter flush with an apiKey configured
and a failing send: the catch handler requeues the taken records at the
front of the remainder and the flush promise rejects. -/
theorem nodeFlush_sent_fail {α : Type} (key : String) (q : List α)
    (tm sd : Bool) (hq : q ≠ []) :
    nodeFlush false (some key) ⟨q, tm, false, sd⟩ =
      (⟨q.take MAX_QUEUE_SIZE ++ q.drop (min MAX_QUEUE_SIZE q.length),
        tm, false, sd⟩, false) := by
  cases q with
  | nil => exact absurd rfl hq
  | cons x xs => simp [nodeFlush]

set_option maxRecDepth 4000 in
/-- C4 counterexample: with 1001 queued records, a TeerExporter flush
drains only the first 1000 — one record remains, so the flush did not
remove every queued record and did not leave the queue empty. -/
theorem c4_counterexample :
    (nodeFlush true (some "k")
        (⟨List.replicate 1001 0, true, false, false⟩ : NodeState Nat)).1.spanQueue.length = 1 ∧
    (nodeFlush true (some "k")
        (⟨List.replicate 1001 0, true, false, false⟩ : NodeState Nat)).1.spanQueue ≠ [] := by
  have hne : List.replicate 1001 (0 : Nat) ≠ [] :=
    List.length_pos.mp (by simp only [List.length_replicate]; omega)
  have h := nodeFlush_sent_ok "k" (List.replicate 1001 (0 : Nat)) true false hne
  rw [h]
  constructor
  · dsimp only
    simp only [List.length_drop, List.length_replicate, MAX_QUEUE_SIZE]
    omega
  · dsimp only
    rw [← List.length_pos]
    simp only [List.length_drop, List.length_replicate, MAX_QUEUE_SIZE]
    omega

/-- C4 amended: a TeerEdgeExporter flush drains the whole queue in one
atomic step — every queued record is handed to createBatches (the
batches flatten back to exactly the queue), afterwards the queue holds
only what failure handling requeued, and with an all-success transport
it is empty; a TeerExporter flush instead drains only the first
MAX_QUEUE_SIZE records, leaving any excess in the queue.  In both
variants, draining by flush and capacity trimming remain the only ways
the queue shrinks: a failed intake leaves the edge queue unchanged, an
edge export within capacity only appends (trimming is the sole shrink
on that path), failure requeueing only grows the queue at its front
(the old queue stays a suffix), and the node export only appends. -/
theorem c4_amended {α : Type} (tr : List α → Bool) (b : Nat) (s : EdgeState α)
    (h : s.activeFlush = none) (key : String) (q : List α) (tm sd : Bool)
    (hq : q ≠ []) (spans : List α) (u : EdgeState α) :
    (createBatches s.spanQueue (b + 1)).flatten = s.spanQueue ∧
    (edgeFlush tr (b + 1) s).state.spanQueue =
      (processBatches tr (createBatches s.spanQueue (b + 1))).requeued ∧
    (edgeFlush (fun _ => true) (b + 1) s).state.spanQueue = [] ∧
    (nodeFlush true (some key) ⟨q, tm, false, sd⟩).1.spanQueue =
      q.drop (min MAX_QUEUE_SIZE q.length) ∧
    (edgeExport s spans true).state.spanQueue = s.spanQueue ∧
    ((s.spanQueue ++ spans).length ≤ MAX_QUEUE_SIZE →
      (edgeExport s spans false).state.spanQueue = s.spanQueue ++ spans) ∧
    u.spanQueue <:+ (runPending tr u).1.spanQueue ∧
    (nodeExport ⟨q, tm, false, sd⟩ spans).1.spanQueue = q ++ spans := by
  refine ⟨createBatches_flatten _ _, ?_, ?_, ?_, rfl, ?_, runPending_suffix tr u, rfl⟩
  · rw [edgeFlush_none tr _ s h]
  · rw [edgeFlush_none _ _ s h]
    simp [processBatches_all_true]
  · rw [nodeFlush_sent_ok key q tm sd hq]
  · intro hle
    simp only [edgeExport, Bool.false_eq_true, if_false]
    rw [trimQueue_eq_of_le _ hle]

/-- C4 amended, witness: also exercises the within-capacity export, the
requeue suffix on an in-flight state, and the node append. -/
theorem c4_amended_witness :
    (createBatches [1, 2, 3] 2).flatten = ([1, 2, 3] : List Nat) ∧
    (edgeFlush (fun _ => true) 2 (⟨[1, 2, 3], true, none, false⟩ : EdgeState Nat)).state.spanQueue =
      (processBatches (fun _ => true) (createBatches [1, 2, 3] 2)).requeued ∧
    (edgeFlush (fun _ => true) 2 (⟨[1, 2, 3], true, none, false⟩ : EdgeState Nat)).state.spanQueue = [] ∧
    (nodeFlush true (some "k") (⟨[4], true, false, false⟩ : NodeState Nat)).1.spanQueue =
      [4].drop (min MAX_QUEUE_SIZE [4].length) ∧
    (edgeExport (⟨[1, 2, 3], true, none, false⟩ : EdgeState Nat) [9] true).state.spanQueue =
      [1, 2, 3] ∧
    (edgeExport (⟨[1, 2, 3], true, none, false⟩ : EdgeState Nat) [9] false).state.spanQueue =
      [1, 2, 3] ++ [9] ∧
    (⟨[7], true, some [[8]], false⟩ : EdgeState Nat).spanQueue <:+
      (runPending (fun _ => true) (⟨[7], true, some [[8]], false⟩ : EdgeState Nat)).1.spanQueue ∧
    (nodeExport (⟨[4], true, false, false⟩ : NodeState Nat) [9]).1.spanQueue = [4] ++ [9] := by
  have H := c4_amended (fun _ => true) 1 (⟨[1, 2, 3], true, none, false⟩ : EdgeState Nat)
    rfl "k" [4] true false (by simp) [9] ⟨[7], true, some [[8]], false⟩
  exact ⟨H.1, H.2.1, H.2.2.1, H.2.2.2.1, H.2.2.2.2.1,
    H.2.2.2.2.2.1 (by simp [MAX_QUEUE_SIZE]), H.2.2.2.2.2.2.1, H.2.2.2.2.2.2.2⟩

/-- C5 counterexample: with one queued span and a failing transport,
the forceFlush promise rejects (ok = false) — the transport error is
thrown to the caller of forceFlush, refuting the claim that forceFlush
always resolves without raising; the failed records are requeued. -/
theorem c5_counterexample :
    (edgeForceFlush (fun (_ : List Nat) => false) 10 ⟨[7], true, none, false⟩).ok = false ∧
    (edgeForceFlush (fun (_ : List Nat) => false) 10 ⟨[7], true, none, false⟩).state.spanQueue =
      [7] := by
  constructor <;>
    simp [edgeForceFlush, runPending, runPendingBatches, edgeFlush, createBatches,
      processBatches]

/-- C5 amended: transport errors during timer-driven flushes are
swallowed by the interval callback (stepTick is a pure state step and
never rethrows), but forceFlush propagates them: starting with no flush
in flight, forceFlush resolves exactly when its processBatches run
succeeded, and its final queue is whatever failure handling requeued. -/
theorem c5_amended {α : Type} (tr : List α → Bool) (b : Nat) (s : EdgeState α)
    (h : s.activeFlush = none) :
    (edgeForceFlush tr (b + 1) s).ok =
      (processBatches tr (createBatches s.spanQueue (b + 1))).ok ∧
    (edgeForceFlush tr (b + 1) s).state.spanQueue =
      (processBatches tr (createBatches s.spanQueue (b + 1))).requeued := by
  simp only [edgeForceFlush, runPending_none tr s h]
  rw [edgeFlush_none tr _ s h]
  exact ⟨rfl, rfl⟩

/-- C5 amended, witness. -/
theorem c5_amended_witness :
    (edgeForceFlush (fun (_ : List Nat) => false) 10 ⟨[7], true, none, false⟩).ok =
      (processBatches (fun (_ : List Nat) => false) (createBatches [7] 10)).ok ∧
    (edgeForceFlush (fun (_ : List Nat) => false) 10 ⟨[7], true, none, false⟩).state.spanQueue =
      (processBatches (fun (_ : List Nat) => false) (createBatches [7] 10)).requeued :=
  c5_amended (fun _ => false) 9 ⟨[7], true, none, false⟩ rfl

/-- C6 counterexample: when the onExport hook throws during export, the
incoming span is not appended (the queue is still empty) and the result
callback receives the error code, not the success code — a hook error
aborts intake. -/
theorem c6_counterexample :
    (edgeExport (edgeInit Nat) [5] true).state.spanQueue = [] ∧
    (edgeExport (edgeInit Nat) [5] true).code = CODE_ERROR ∧
    CODE_ERROR ≠ CODE_SUCCESS := by
  refine ⟨?_, ?_, ?_⟩ <;> simp [edgeExport, edgeInit, CODE_ERROR, CODE_SUCCESS]

/-- C6 amended: the onExport hook runs inside the try block before the
queue push, so an error raised by the hook aborts intake — the state is
unchanged and the result callback receives CODE.ERROR; only when the
hook does not throw are the spans appended (with capacity trimming) and
the callback handed CODE.SUCCESS.  In both cases the hook was
invoked. -/
theorem c6_amended {α : Type} (s : EdgeState α) (spans : List α) :
    (edgeExport s spans true).state = s ∧
    (edgeExport s spans true).code = CODE_ERROR ∧
    (edgeExport s spans true).hookInvoked = true ∧
    (edgeExport s spans false).state.spanQueue = trimQueue (s.spanQueue ++ spans) ∧
    (edgeExport s spans false).code = CODE_SUCCESS :=
  ⟨rfl, rfl, rfl, rfl, rfl⟩

/-- Queue behavior of a TeerExporter flush when the apiKey is missing:
sendSpans throws before entering its try block, so the requeue handler
in the catch never runs — the drained records are dropped, only the
untaken remainder stays queued, and the flush promise rejects. -/
theorem nodeFlush_noKey {α : Type} (tr : Bool) (q : List α) (tm sd : Bool)
    (hq : q ≠ []) :
    nodeFlush tr none ⟨q, tm, false, sd⟩ =
      (⟨q.drop (min MAX_QUEUE_SIZE q.length), tm, false, sd⟩, false) := by
  cases q with
  | nil => exact absurd rfl hq
  | cons x xs => simp [nodeFlush]

/-- C7 counterexample: a TeerExporter with no apiKey and one queued
span: the flush attempt fails (rejects), but the span is dropped — the
queue is empty afterwards instead of holding the record at its
front. -/
theorem c7_counterexample :
    (nodeFlush true none (⟨[0], true, false, false⟩ : NodeState Nat)).1.spanQueue = [] ∧
    (nodeFlush true none (⟨[0], true, false, false⟩ : NodeState Nat)).2 = false := by
  constructor <;> simp [nodeFlush, MAX_QUEUE_SIZE]

/-- C7 amended: a missing authentication key does not fail construction
(the TeerExporter constructor accepts an absent key and starts with a
normal empty state) and makes the send attempt a hard failure of that
flush, but the records of the attempted send are NOT returned to the
queue: the key check throws before the requeue handler, so the drained
records are dropped and only records beyond the MAX_QUEUE_SIZE drain
window remain queued. -/
theorem c7_amended {α : Type} (tr : Bool) (q : List α) (tm sd : Bool) (hq : q ≠ []) :
    (nodeMk α none).1 = ⟨[], true, false, false⟩ ∧
    (nodeFlush tr none ⟨q, tm, false, sd⟩).2 = false ∧
    (nodeFlush tr none ⟨q, tm, false, sd⟩).1.spanQueue =
      q.drop (min MAX_QUEUE_SIZE q.length) := by
  rw [nodeFlush_noKey tr q tm sd hq]
  exact ⟨rfl, rfl, rfl⟩

/-- C7 amended, witness. -/
theorem c7_amended_witness :
    (nodeMk Nat none).1 = ⟨[], true, false, false⟩ ∧
    (nodeFlush true none (⟨[0], true, false, false⟩ : NodeState Nat)).2 = false ∧
    (nodeFlush true none (⟨[0], true, false, false⟩ : NodeState Nat)).1.spanQueue =
      [0].drop (min MAX_QUEUE_SIZE [0].length) :=
  c7_amended true [0] true false (by simp)

/-- C8: order preservation — starting from a fresh TeerEdgeExporter,
after any sequence of export calls whose spans fit within the queue
bound, the queue is the concatenation of the exported spans in original
order, and a flush against an all-success transport sends exactly the
partition of that queue into consecutive batches of at most the
configured batch size: the sent batches flatten back to the exact queue
content, every batch is non-empty and no longer than the batch size,
and an empty input yields zero batches. -/
theorem c8_order_preservation {α : Type} (b : Nat) (calls : List (List α))
    (hlen : calls.flatten.length ≤ MAX_QUEUE_SIZE) :
    (foldExports (edgeInit α) (calls.map (fun c => (c, false)))).spanQueue =
      calls.flatten ∧
    (edgeFlush (fun _ => true) (b + 1)
        (foldExports (edgeInit α) (calls.map (fun c => (c, false))))).sent =
      createBatches calls.flatten (b + 1) ∧
    (createBatches calls.flatten (b + 1)).flatten = calls.flatten ∧
    (∀ c ∈ createBatches calls.flatten (b + 1), c.length ≤ b + 1 ∧ c ≠ []) ∧
    createBatches ([] : List α) (b + 1) = [] := by
  have hfold := foldExports_queue calls (edgeInit α) (by simpa [edgeInit] using hlen)
  have hq : (foldExports (edgeInit α) (calls.map (fun c => (c, false)))).spanQueue =
      calls.flatten := by
    rw [hfold]
    simp [edgeInit]
  have haf : (foldExports (edgeInit α) (calls.map (fun c => (c, false)))).activeFlush =
      none := by
    rw [hfold]
    simp [edgeInit]
  refine ⟨hq, ?_, createBatches_flatten _ _, createBatches_mem _ _, createBatches_nil _⟩
  rw [edgeFlush_none _ _ _ haf, hq]
  simp [processBatches_all_true]

/-- C8 witness at a concrete export sequence and batch size. -/
theorem c8_order_preservation_witness :
    (foldExports (edgeInit Nat) ([[1, 2], [3]].map (fun c => (c, false)))).spanQueue =
      ([[1, 2], [3]] : List (List Nat)).flatten ∧
    (edgeFlush (fun _ => true) 2
        (foldExports (edgeInit Nat) ([[1, 2], [3]].map (fun c => (c, false))))).sent =
      createBatches ([[1, 2], [3]] : List (List Nat)).flatten 2 ∧
    (createBatches ([[1, 2], [3]] : List (List Nat)).flatten 2).flatten =
      ([[1, 2], [3]] : List (List Nat)).flatten ∧
    (([1, 2] : List Nat).length ≤ 2 ∧ ([1, 2] : List Nat) ≠ []) ∧
    createBatches ([] : List Nat) 2 = [] := by
  have H := c8_order_preservation (α := Nat) 1 [[1, 2], [3]] (by simp [MAX_QUEUE_SIZE])
  exact ⟨H.1, H.2.1, H.2.2.1, H.2.2.2.1 [1, 2] (by simp [createBatches]), H.2.2.2.2⟩

/-- Transport that fails exactly on the batch [9]. -/
def failOnNine : List Nat → Bool := fun b => decide (b ≠ [9])

/-- C9 counterexample: shutdown is called while a flush whose pending
batch [9] is in flight and the transport fails on that batch; awaiting
the in-flight flush rethrows, so shutdown rejects before its final
flush — nothing is sent and the remaining queue [9, 1] is left
unflushed, although one flush of that remaining queue would have
drained it (the combined batch [9, 1] succeeds).  This refutes the
unconditional "then performs exactly one final flush of the remaining
queue". -/
theorem c9_counterexample :
    (edgeShutdown failOnNine 10 ⟨[1], true, some [[9]], false⟩).sent = [] ∧
    (edgeShutdown failOnNine 10 ⟨[1], true, some [[9]], false⟩).state.spanQueue = [9, 1] ∧
    (edgeShutdown failOnNine 10 ⟨[1], true, some [[9]], false⟩).ok = false ∧
    (edgeFlush failOnNine 10 ⟨[9, 1], false, none, true⟩).state.spanQueue = [] := by
  refine ⟨?_, ?_, ?_, ?_⟩ <;>
    simp [edgeShutdown, runPending, runPendingBatches, edgeFlush, createBatches,
      processBatches, failOnNine]

/-- C9 amended: shutdown cancels the interval timer first and no timer
tick ever changes the state again afterwards; it waits for any
in-flight flush, and when none was in flight it performs exactly one
final flush of the remaining queue — but when the awaited in-flight
flush fails, shutdown rethrows that error and the final flush is
skipped. -/
theorem c9_amended {α : Type} (tr : List α → Bool) (bs : Nat) (s : EdgeState α) :
    (edgeShutdown tr bs s).state.timerActive = false ∧
    (∀ n : Nat, (stepTick bs)^[n] (edgeShutdown tr bs s).state =
      (edgeShutdown tr bs s).state) ∧
    (s.activeFlush = none →
      edgeShutdown tr bs s = edgeFlush tr bs ⟨s.spanQueue, false, none, true⟩) := by
  have htimer : (edgeShutdown tr bs s).state.timerActive = false := by
    simp only [edgeShutdown]
    split
    · rw [edgeFlush_timerActive, runPending_timerActive]
    · show (runPending tr _).1.timerActive = false
      rw [runPending_timerActive]
  refine ⟨htimer, fun n => Function.iterate_fixed (stepTick_timer_off bs _ htimer) n, ?_⟩
  intro h
  obtain ⟨q, tm, af, sd⟩ := s
  simp only at h
  subst h
  simp [edgeShutdown, runPending_none]

/-- C9 amended, witness. -/
theorem c9_amended_witness :
    (edgeShutdown (fun (_ : List Nat) => true) 10 ⟨[3], true, none, false⟩).state.timerActive =
      false ∧
    (stepTick 10)^[5] (edgeShutdown (fun (_ : List Nat) => true) 10
        ⟨[3], true, none, false⟩).state =
      (edgeShutdown (fun (_ : List Nat) => true) 10 ⟨[3], true, none, false⟩).state ∧
    edgeShutdown (fun (_ : List Nat) => true) 10 ⟨[3], true, none, false⟩ =
      edgeFlush (fun (_ : List Nat) => true) 10 ⟨[3], false, none, true⟩ :=
  ⟨(c9_amended (fun _ => true) 10 ⟨[3], true, none, false⟩).1,
    (c9_amended (fun _ => true) 10 ⟨[3], true, none, false⟩).2.1 5,
    (c9_amended (fun _ => true) 10 ⟨[3], true, none, false⟩).2.2 rfl⟩

/-- C10: TeerEdgeExporter.export performs no shutdown check — on the
state left behind by a completed shutdown (isShuttingDown = true), an
export call still invokes the onExport hook, still appends the spans to
the queue (with capacity trimming), and still hands CODE.SUCCESS to the
result callback: a shut-down instance silently keeps accepting
spans. -/
theorem c10_export_after_shutdown {α : Type} (tr : List α → Bool) (bs : Nat)
    (s : EdgeState α) (spans : List α) :
    (edgeShutdown tr bs s).state.isShuttingDown = true ∧
    (edgeExport (edgeShutdown tr bs s).state spans false).code = CODE_SUCCESS ∧
    (edgeExport (edgeShutdown tr bs s).state spans false).hookInvoked = true ∧
    (edgeExport (edgeShutdown tr bs s).state spans false).state.spanQueue =
      trimQueue ((edgeShutdown tr bs s).state.spanQueue ++ spans) := by
  have hsd : (edgeShutdown tr bs s).state.isShuttingDown = true := by
    simp only [edgeShutdown]
    split
    · rw [edgeFlush_isShuttingDown, runPending_isShuttingDown]
    · show (runPending tr _).1.isShuttingDown = true
      rw [runPending_isShuttingDown]
  exact ⟨hsd, rfl, rfl, rfl⟩

end Teer

